import Mathlib

deriving instance DecidableEq for Except

/-!
Shallow embedding of the primetask-api backend (Django/DRF task manager):
user accounts with roles, JWT-style logout with a blacklist, and task CRUD
with role-scoped visibility, ownership permissions, a status state machine
and query filters.  Definitions are translated from the Python source under
backend/accounts and backend/tasks; theorems settle the specification
claims about them.
-/

namespace PrimeTask

/-- Python str.lower, the case normalization used by the registration
serializer and by `icontains`, written by structural recursion so that it
evaluates inside the kernel. -/
def pyLower (s : String) : String := String.mk (s.data.map Char.toLower)

/-- Python str.strip: whitespace removed from both ends. -/
def pyStrip (s : String) : String :=
  String.mk (((s.data.dropWhile Char.isWhitespace).reverse.dropWhile Char.isWhitespace).reverse)

/-- `User.ROLE_CHOICES` in accounts/models.py: the role field takes the
values `user` and `admin`. -/
inductive Role where
  | user
  | admin
deriving DecidableEq, Repr

/-- `Task.STATUS_CHOICES` in tasks/models.py. -/
inductive Status where
  | pending
  | in_progress
  | completed
  | cancelled
deriving DecidableEq, Repr

/-- `Task.PRIORITY_CHOICES` in tasks/models.py. -/
inductive Priority where
  | low
  | medium
  | high
deriving DecidableEq, Repr

/-- The string stored in the `status` column for each status choice. -/
def Status.toStr : Status → String
  | .pending => "pending"
  | .in_progress => "in_progress"
  | .completed => "completed"
  | .cancelled => "cancelled"

/-- The string stored in the `priority` column for each priority choice. -/
def Priority.toStr : Priority → String
  | .low => "low"
  | .medium => "medium"
  | .high => "high"

/-- A user record (accounts/models.py `User`): id, unique email, username,
password hash, names, role and active flag. -/
structure UserRec where
  id : Nat
  email : String
  username : String
  password_hash : String
  first_name : String
  last_name : String
  role : Role
  is_active : Bool
deriving DecidableEq, Repr

/-- A task record (tasks/models.py `Task`): the owner is a foreign key to a
user, held here as the id of its owner; `due_date` is an optional timestamp. -/
structure TaskRec where
  id : Nat
  title : String
  description : Option String
  status : Status
  priority : Priority
  due_date : Option Nat
  owner : Nat
deriving DecidableEq, Repr

/-- The `allowed_transitions` dict in `TaskSerializer.validate_status`
(tasks/serializers.py). -/
def allowed_transitions : Status → List Status
  | .pending => [.in_progress, .cancelled]
  | .in_progress => [.completed, .pending, .cancelled]
  | .completed => [.pending]
  | .cancelled => [.pending]

/-- `TaskSerializer.validate_status` (tasks/serializers.py): on an update
(`self.instance` present) a new status different from the current one must
appear in `allowed_transitions[current]`, otherwise a `ValidationError`
naming the source and target state is raised; on create (`self.instance`
absent) the value passes through unchecked. -/
def validate_status (inst : Option Status) (value : Status) : Except String Status :=
  match inst with
  | none => .ok value
  | some current =>
      if value ≠ current ∧ value ∉ allowed_transitions current then
        .error ("Cannot transition from " ++ current.toStr ++ " to " ++ value.toStr ++ ".")
      else
        .ok value

/-- The transition pairs listed in the claim and in the spec table (§4.3),
written from the spec for comparison with `allowed_transitions`. -/
def specAllowedPairs : List (Status × Status) :=
  [(.pending, .in_progress), (.pending, .cancelled),
   (.in_progress, .pending), (.in_progress, .completed), (.in_progress, .cancelled),
   (.completed, .pending), (.cancelled, .pending)]

/-- `TaskCreateSerializer` payload (tasks/serializers.py): fields are
title, description, priority, due_date — status and owner are absent. -/
structure TaskCreatePayload where
  title : String
  description : Option String
  priority : Option Priority
  due_date : Option Nat
deriving DecidableEq, Repr

/-- `TaskCreateSerializer` (tasks/serializers.py): `validate_title` trims
the title and requires at least 3 characters; `create` sets the owner to
the requesting user; the model defaults give `status = pending` and
`priority = medium` when absent. -/
def createTask (caller : UserRec) (nextId : Nat) (p : TaskCreatePayload) :
    Except (List (String × String)) TaskRec :=
  if (pyStrip p.title).length < 3 then
    .error [("title", "Title must be at least 3 characters long.")]
  else
    .ok { id := nextId
          title := pyStrip p.title
          description := p.description
          status := .pending
          priority := p.priority.getD .medium
          due_date := p.due_date
          owner := caller.id }

/-- Registration input (accounts/serializers.py `UserRegistrationSerializer`):
the serializer fields plus a `role` slot for a role value a client may put
in the request body — `role` is not among the serializer fields, so it can
never reach `validated_data`. -/
structure RegInput where
  email : String
  username : String
  password : String
  password_confirm : String
  first_name : Option String
  last_name : Option String
  role : Option Role
deriving DecidableEq, Repr

/-- Modelled from the spec: the common-password list of the delegated Django
password strength policy (§4.1, "not a common password — delegated to an
external validator"); the validator code is not in the repository. -/
def commonPasswords : List String := ["password", "12345678", "qwertyui"]

/-- Modelled from the spec: the delegated Django password strength policy
(§4.1 and the serializer help text): minimum length 8, not purely numeric,
not a common password.  The validator itself is an external collaborator
whose code is not in the repository. -/
def passwordStrengthErrors (pw : String) : List String :=
  (if pw.length < 8 then ["This password is too short."] else []) ++
  (if pw.toList.all Char.isDigit then ["This password is entirely numeric."] else []) ++
  (if pyLower pw ∈ commonPasswords then ["This password is too common."] else [])

/-- Modelled from the spec: the external password hasher (§1, an external
collaborator providing password hashing); only opacity matters here. -/
def hashPassword (pw : String) : String := "hashed:" ++ pw

/-- `UserRegistrationSerializer.validate_email`: a user whose stored email
equals the lowercased input is a conflict; otherwise the lowercased email
is returned. -/
def validate_email (store : List UserRec) (value : String) : Except String String :=
  if store.any (fun u => u.email = pyLower value) then
    .error "A user with this email already exists."
  else
    .ok (pyLower value)

/-- Python `str.isalnum`: nonempty and every character alphanumeric. -/
def pyIsAlnum (s : String) : Bool :=
  s.length != 0 && s.toList.all Char.isAlphanum

/-- `UserRegistrationSerializer.validate_username`: uniqueness against the
lowercased input, then alphanumeric, then length at least 3; returns the
lowercased username. -/
def validate_username (store : List UserRec) (value : String) : Except String String :=
  if store.any (fun u => u.username = pyLower value) then
    .error "A user with this username already exists."
  else if !pyIsAlnum value then
    .error "Username must be alphanumeric."
  else if value.length < 3 then
    .error "Username must be at least 3 characters long."
  else
    .ok (pyLower value)

/-- The per-field errors DRF collects when running the field validators of
the registration serializer. -/
def registerFieldErrors (store : List UserRec) (inp : RegInput) : List (String × String) :=
  (match validate_email store inp.email with
   | .error m => [("email", m)]
   | .ok _ => []) ++
  (match validate_username store inp.username with
   | .error m => [("username", m)]
   | .ok _ => []) ++
  ((passwordStrengthErrors inp.password).map (fun m => ("password", m)))

/-- `UserRegistrationSerializer` end to end (accounts/serializers.py):
field validators run first and any failure yields a field-scoped error map;
then the object-level `validate` requires `password = password_confirm`;
then `create` pops `password_confirm` and calls `create_user` with the
validated (lowercased) email and username and with the role fixed to `user`,
ignoring any role in the request. -/
def register (store : List UserRec) (nextId : Nat) (inp : RegInput) :
    Except (List (String × String)) UserRec :=
  match registerFieldErrors store inp with
  | e :: es => .error (e :: es)
  | [] =>
    if inp.password = inp.password_confirm then
      .ok { id := nextId
            email := pyLower inp.email
            username := pyLower inp.username
            password_hash := hashPassword inp.password
            first_name := inp.first_name.getD ""
            last_name := inp.last_name.getD ""
            role := .user
            is_active := true }
    else
      .error [("password_confirm", "Passwords do not match.")]

/-- The role test used throughout tasks/views.py:
`user.is_authenticated and hasattr(user, role) and user.role == admin`;
an authenticated `UserRec` always has the role attribute. -/
def isAdminCaller (u : UserRec) : Bool := u.role = Role.admin

/-- The role-scoped base queryset of `TaskListCreateView.get_queryset`,
`TaskDetailView.get_queryset` and `TaskStatsView.get` (tasks/views.py):
admins see `Task.objects.all()`, everyone else `filter(owner=user)`. -/
def baseQueryset (caller : UserRec) (tasks : List TaskRec) : List TaskRec :=
  if isAdminCaller caller then tasks else tasks.filter (fun t => t.owner = caller.id)

/-- `IsOwnerOrAdmin.has_object_permission` (accounts/permissions.py)
specialised to tasks, which have an `owner` attribute: admins pass, others
pass iff they own the object. -/
def has_object_permission (caller : UserRec) (t : TaskRec) : Bool :=
  if caller.role = Role.admin then true else t.owner = caller.id

/-- Whether the character list starting here begins with `n`. -/
def listStartsWith : List Char → List Char → Bool
  | [], _ => true
  | _ :: _, [] => false
  | a :: as, b :: bs => a = b && listStartsWith as bs

/-- Whether `n` occurs as a contiguous run inside `h`. -/
def listHasRun (n : List Char) : List Char → Bool
  | [] => listStartsWith n []
  | c :: t => listStartsWith n (c :: t) || listHasRun n t

/-- the Django `icontains` lookup on a non-null column: case-insensitive
substring containment. -/
def icontains (haystack needle : String) : Bool :=
  listHasRun (pyLower needle).toList (pyLower haystack).toList

/-- The `Q(title__icontains=search) | Q(description__icontains=search)`
filter of `TaskListCreateView.get_queryset`; `icontains` on a NULL
description matches nothing. -/
def matchesSearch (t : TaskRec) (search : String) : Bool :=
  icontains t.title search ||
    (match t.description with
     | some d => icontains d search
     | none => false)

/-- The optional query parameters of the task list endpoint:
`request.query_params.get(...)` yields `none` when the parameter is absent
and `some s` (possibly the empty string) when present. -/
structure TaskQueryParams where
  status : Option String
  priority : Option String
  search : Option String
deriving DecidableEq, Repr

/-- Python truthiness of `request.query_params.get(name)`: `None` and the
empty string are falsy. -/
def truthy : Option String → Bool
  | none => false
  | some s => s ≠ ""

/-- `TaskListCreateView.get_queryset` (tasks/views.py): role-scoped base
set, then each filter is applied only when its parameter is truthy —
`status` and `priority` by exact match on the stored string, `search` by
case-insensitive substring match on title or description. -/
def list_tasks (caller : UserRec) (tasks : List TaskRec) (p : TaskQueryParams) :
    List TaskRec :=
  let queryset := baseQueryset caller tasks
  let queryset := match p.status with
    | some s => if s ≠ "" then queryset.filter (fun t => t.status.toStr = s) else queryset
    | none => queryset
  let queryset := match p.priority with
    | some s => if s ≠ "" then queryset.filter (fun t => t.priority.toStr = s) else queryset
    | none => queryset
  match p.search with
  | some s => if s ≠ "" then queryset.filter (fun t => matchesSearch t s) else queryset
  | none => queryset

/-- The filter predicate as the spec words it (§4.4 and the claim):
"status exact match; priority exact match; search substring match
(case-insensitive) against title OR description", each applied whenever the
parameter is supplied.  Written from the spec for comparison with
`list_tasks`. -/
def specSatisfiesFilters (t : TaskRec) (p : TaskQueryParams) : Bool :=
  (match p.status with
   | some s => t.status.toStr = s
   | none => true) &&
  (match p.priority with
   | some s => t.priority.toStr = s
   | none => true) &&
  (match p.search with
   | some s => matchesSearch t s
   | none => true)

/-- The request-level errors a DRF detail view can produce in this model. -/
inductive ApiError where
  | notFound
  | forbidden
  | badRequest (message : String)
  | validation (errors : List (String × String))
deriving DecidableEq, Repr

/-- the DRF `get_object` as run by `TaskDetailView` for retrieve, update and
delete: look the id up inside `get_queryset()` — a miss is a 404 — and only
then check `IsOwnerOrAdmin.has_object_permission`, a failure being a
403. -/
def getTaskObject (caller : UserRec) (tasks : List TaskRec) (tid : Nat) :
    Except ApiError TaskRec :=
  match (baseQueryset caller tasks).find? (fun t => t.id = tid) with
  | none => .error .notFound
  | some t => if has_object_permission caller t then .ok t else .error .forbidden

/-- A PUT/PATCH body for `TaskSerializer`: a field is `none` when absent
from the payload; `owner` is carried to show the serializer never reads it
(it is in `read_only_fields`). -/
structure TaskUpdatePayload where
  title : Option String
  description : Option (Option String)
  status : Option Status
  priority : Option Priority
  due_date : Option (Option Nat)
  owner : Option Nat
deriving DecidableEq, Repr

/-- `TaskSerializer` on an existing instance (tasks/serializers.py):
`validate_title` trims and requires length >= 3, `validate_status` checks
the transition table; errors are field-scoped; on success the writable
fields present in the payload are written onto the instance —
`read_only_fields = [id, owner, created_at, updated_at]` never are. -/
def taskUpdateErrors (inst : TaskRec) (p : TaskUpdatePayload) :
    List (String × String) :=
  (match p.title with
   | some v =>
       if (pyStrip v).length < 3 then
         [("title", "Title must be at least 3 characters long.")]
       else []
   | none => []) ++
  (match p.status with
   | some v =>
       match validate_status (some inst.status) v with
       | .error m => [("status", m)]
       | .ok _ => []
   | none => [])

/-- The success path of `TaskSerializer.update`: writable fields present in
the payload are written, the read-only ones are not. -/
def runTaskUpdate (inst : TaskRec) (p : TaskUpdatePayload) :
    Except (List (String × String)) TaskRec :=
  match taskUpdateErrors inst p with
  | e :: es => .error (e :: es)
  | [] =>
      .ok { inst with
            title := (p.title.map pyStrip).getD inst.title
            description := p.description.getD inst.description
            status := p.status.getD inst.status
            priority := p.priority.getD inst.priority
            due_date := p.due_date.getD inst.due_date }

/-- `TaskDetailView` retrieve: `get_object` then serialize. -/
def task_retrieve (caller : UserRec) (tasks : List TaskRec) (tid : Nat) :
    Except ApiError TaskRec :=
  getTaskObject caller tasks tid

/-- `TaskDetailView` update (PUT/PATCH): `get_object`, then the
`TaskSerializer` validation and write. -/
def task_update (caller : UserRec) (tasks : List TaskRec) (tid : Nat)
    (p : TaskUpdatePayload) : Except ApiError TaskRec :=
  match getTaskObject caller tasks tid with
  | .error e => .error e
  | .ok t =>
      match runTaskUpdate t p with
      | .error errs => .error (.validation errs)
      | .ok t2 => .ok t2

/-- `TaskDetailView` delete: `get_object`, then the instance is removed
from the store. -/
def task_delete (caller : UserRec) (tasks : List TaskRec) (tid : Nat) :
    Except ApiError (List TaskRec) :=
  match getTaskObject caller tasks tid with
  | .error e => .error e
  | .ok _ => .ok (tasks.filter (fun t => t.id ≠ tid))

/-- The response body of `TaskStatsView.get`. -/
structure TaskStats where
  total : Nat
  pending : Nat
  in_progress : Nat
  completed : Nat
  cancelled : Nat
deriving DecidableEq, Repr

/-- `TaskStatsView.get` (tasks/views.py): role-scoped queryset, then one
count per status plus the total. -/
def task_stats (caller : UserRec) (tasks : List TaskRec) : TaskStats :=
  let queryset := baseQueryset caller tasks
  { total := queryset.length
    pending := (queryset.filter (fun t => t.status = Status.pending)).length
    in_progress := (queryset.filter (fun t => t.status = Status.in_progress)).length
    completed := (queryset.filter (fun t => t.status = Status.completed)).length
    cancelled := (queryset.filter (fun t => t.status = Status.cancelled)).length }

/-- `AdminUserDetailView.delete` (accounts/views.py) together with its
permissions: `IsAdminUser` requires an admin caller (403 otherwise); the
target is fetched from `User.objects.all()` by id (404 on a miss);
`if user == request.user` — Django model equality, i.e. equal primary
keys — rejects self-deletion with a 400 carrying the message
"You cannot delete your own account"; otherwise the record is destroyed.
Returns the response paired with the resulting user store. -/
def admin_delete_user (caller : UserRec) (store : List UserRec) (targetId : Nat) :
    Except ApiError Unit × List UserRec :=
  if caller.role ≠ Role.admin then
    (.error .forbidden, store)
  else
    match store.find? (fun u => u.id = targetId) with
    | none => (.error .notFound, store)
    | some target =>
        if target.id = caller.id then
          (.error (.badRequest "You cannot delete your own account"), store)
        else
          (.ok (), store.filter (fun u => u.id ≠ targetId))

/-- A PUT/PATCH body for `AdminUserUpdateSerializer`
(accounts/serializers.py): its field list is id, email, username,
first_name, last_name, role, is_active with
`read_only_fields = [id, email, username]`; the read-only slots are carried
to show the update never reads them. -/
structure AdminUserUpdatePayload where
  id : Option Nat
  email : Option String
  username : Option String
  first_name : Option String
  last_name : Option String
  role : Option Role
  is_active : Option Bool
deriving DecidableEq, Repr

/-- `AdminUserDetailView` update through `AdminUserUpdateSerializer`: the
writable fields present in the payload are written onto the instance; the
read-only id, email and username never are. -/
def admin_update_user (inst : UserRec) (p : AdminUserUpdatePayload) : UserRec :=
  { inst with
    first_name := p.first_name.getD inst.first_name
    last_name := p.last_name.getD inst.last_name
    role := p.role.getD inst.role
    is_active := p.is_active.getD inst.is_active }

/-- Modelled from the spec: the state of the external JWT collaborator
(§1, §4.1) — the set of refresh tokens it has issued and the blacklist.
The simplejwt library and the Django settings wiring it are not in the
repository; per §4.1 a refresh token parses iff it was issued and is well
formed, the blacklist add in logout is an idempotent set insert (§5), and in
the observed design parsing inside logout does not reject an
already-blacklisted token (§4.1: logout on one still returns success). -/
structure AuthState where
  issued : List String
  blacklist : List String
deriving DecidableEq, Repr

/-- Modelled from the spec: `token.blacklist()` as atomic idempotent
set-membership add (§5). -/
def blacklistAdd (st : AuthState) (tok : String) : AuthState :=
  if tok ∈ st.blacklist then st else { st with blacklist := tok :: st.blacklist }

/-- `LogoutView.post` (accounts/views.py): a missing (or empty, hence
falsy) `refresh` field is answered with a 400 "Refresh token is required";
`RefreshToken(refresh_token)` raising on a malformed/unissued token is
caught by the blanket `except` and answered with a 400 "Invalid token";
otherwise the token is blacklisted and a success message returned.  The
function is total: every request gets a deterministic response. -/
def logout (st : AuthState) (refresh : Option String) :
    Except ApiError String × AuthState :=
  if !truthy refresh then
    (.error (.badRequest "Refresh token is required"), st)
  else
    match refresh with
    | none => (.error (.badRequest "Refresh token is required"), st)
    | some tok =>
        if tok ∈ st.issued then
          (.ok "Successfully logged out", blacklistAdd st tok)
        else
          (.error (.badRequest "Invalid token"), st)

/-! Concrete fixtures used by witnesses and counterexamples. -/

/-- A regular (non-admin) user. -/
def alice : UserRec :=
  { id := 1, email := "alice@example.com", username := "alice1"
    password_hash := "hashed:pw1", first_name := "Alice", last_name := "A"
    role := .user, is_active := true }

/-- Another regular user. -/
def bob : UserRec :=
  { id := 2, email := "bob@example.com", username := "bob22"
    password_hash := "hashed:pw2", first_name := "Bob", last_name := "B"
    role := .user, is_active := true }

/-- An admin user. -/
def carol : UserRec :=
  { id := 3, email := "carol@example.com", username := "carol3"
    password_hash := "hashed:pw3", first_name := "Carol", last_name := "C"
    role := .admin, is_active := true }

/-- A second admin user. -/
def dave : UserRec :=
  { id := 4, email := "dave@example.com", username := "dave44"
    password_hash := "hashed:pw4", first_name := "Dave", last_name := "D"
    role := .admin, is_active := true }

/-- A task owned by bob. -/
def bobTask : TaskRec :=
  { id := 10, title := "Write report", description := some "Quarterly report"
    status := .pending, priority := .medium, due_date := none, owner := 2 }

/-- A task owned by alice. -/
def aliceTask : TaskRec :=
  { id := 11, title := "Review notes", description := none
    status := .pending, priority := .high, due_date := none, owner := 1 }

/-- A creation payload whose title needs trimming. -/
def samplePayload : TaskCreatePayload :=
  { title := "  Write spec  ", description := none, priority := none, due_date := none }

/-- The task `createTask alice 100 samplePayload` produces. -/
def sampleCreated : TaskRec :=
  { id := 100, title := "Write spec", description := none
    status := .pending, priority := .medium, due_date := none, owner := 1 }

/-- Claim C1: with current status `from` and requested status `to`, a status
update passes `validate_status` iff `to = from` or (from, to) is one of the
seven pairs of the transition table; every other pair is rejected with a
ValidationError naming the source and target state; the check never fires
on create — `validate_status` passes any value through when there is no
instance, and a created task always starts at `pending`. -/
theorem status_transition_table_correct :
    (∀ f t : Status, validate_status (some f) t = Except.ok t ↔
      (t = f ∨ (f, t) ∈ specAllowedPairs)) ∧
    (∀ f t : Status, validate_status (some f) t = Except.ok t ∨
      validate_status (some f) t =
        Except.error ("Cannot transition from " ++ f.toStr ++ " to " ++ t.toStr ++ ".")) ∧
    (∀ v : Status, validate_status none v = Except.ok v) ∧
    (∀ (caller : UserRec) (nextId : Nat) (p : TaskCreatePayload) (task : TaskRec),
      createTask caller nextId p = Except.ok task → task.status = Status.pending) := by
  refine ⟨?_, ?_, ?_, ?_⟩
  · intro f t
    cases f <;> cases t <;> decide
  · intro f t
    cases f <;> cases t <;> first
      | exact Or.inl (by decide)
      | exact Or.inr (by decide)
  · intro v
    rfl
  · intro caller nextId p task h
    unfold createTask at h
    split at h
    · exact absurd h (by simp)
    · cases h
      rfl

/-- Witness for C1: a concrete creation succeeds and, by the theorem, the
created task starts at `pending`. -/
theorem status_transition_table_correct_witness :
    createTask alice 100 samplePayload = Except.ok sampleCreated ∧
    sampleCreated.status = Status.pending :=
  ⟨by decide,
   status_transition_table_correct.2.2.2 alice 100 samplePayload sampleCreated (by decide)⟩

/-- A registration request that supplies an admin role value; the role slot
never reaches the serializer. -/
def regSample : RegInput :=
  { email := "Eve@Example.com", username := "EveEve"
    password := "Str0ngPassword", password_confirm := "Str0ngPassword"
    first_name := some "Eve", last_name := none, role := some .admin }

/-- The user `register [] 7 regSample` creates. -/
def regSampleUser : UserRec :=
  { id := 7, email := "eve@example.com", username := "eveeve"
    password_hash := "hashed:Str0ngPassword", first_name := "Eve", last_name := ""
    role := .user, is_active := true }

/-- Claim C2: every successful registration creates a user whose role is
`user`, whatever role value the request carried. -/
theorem registration_role_forced_to_user :
    ∀ (store : List UserRec) (nextId : Nat) (inp : RegInput) (u : UserRec),
      register store nextId inp = Except.ok u → u.role = Role.user := by
  intro store nextId inp u h
  unfold register at h
  split at h
  · cases h
  · split at h
    · cases h
      rfl
    · cases h

/-- Witness for C2: a concrete registration that asks for the admin role
succeeds and, by the theorem, the created user is a regular user. -/
theorem registration_role_forced_to_user_witness :
    register [] 7 regSample = Except.ok regSampleUser ∧
    regSample.role = some Role.admin ∧
    regSampleUser.role = Role.user :=
  ⟨by decide, by decide,
   registration_role_forced_to_user [] 7 regSample regSampleUser (by decide)⟩

/-- A registration request whose email collides, case-insensitively, with
the stored email of `bob`. -/
def regConflict : RegInput :=
  { email := "BOB@Example.com", username := "newname9"
    password := "Str0ngPassword", password_confirm := "Str0ngPassword"
    first_name := none, last_name := none, role := none }

/-- Claim C6: over a store whose emails and usernames are already
lowercase-normalized (the invariant registration itself maintains), a
registration whose email or username exists case-insensitively fails with
a field-scoped conflict on that very field — the total `register` function
returns an error map, never a crash — and a successful registration stores
the lowercase normalizations of the input email and username. -/
theorem registration_uniqueness_case_insensitive :
    ∀ (store : List UserRec) (nextId : Nat) (inp : RegInput),
      (∀ u ∈ store, pyLower u.email = u.email ∧ pyLower u.username = u.username) →
      ((∃ u ∈ store, pyLower u.email = pyLower inp.email) →
        ∃ errs, register store nextId inp = Except.error errs ∧
          ("email", "A user with this email already exists.") ∈ errs) ∧
      ((∃ u ∈ store, pyLower u.username = pyLower inp.username) →
        ∃ errs, register store nextId inp = Except.error errs ∧
          ("username", "A user with this username already exists.") ∈ errs) ∧
      (∀ u : UserRec, register store nextId inp = Except.ok u →
        u.email = pyLower inp.email ∧ u.username = pyLower inp.username) := by
  intro store nextId inp hnorm
  refine ⟨?_, ?_, ?_⟩
  · rintro ⟨u, hu, he⟩
    have hany : store.any (fun v => v.email = pyLower inp.email) = true := by
      rw [List.any_eq_true]
      exact ⟨u, hu, by rw [decide_eq_true_iff]; rw [← (hnorm u hu).1]; exact he⟩
    have hmem : ("email", "A user with this email already exists.") ∈
        registerFieldErrors store inp := by
      unfold registerFieldErrors validate_email
      rw [if_pos hany]
      simp
    refine ⟨registerFieldErrors store inp, ?_, hmem⟩
    unfold register
    obtain ⟨e, es, hcons⟩ :=
      List.exists_cons_of_ne_nil (List.ne_nil_of_mem hmem)
    rw [hcons]
  · rintro ⟨u, hu, he⟩
    have hany : store.any (fun v => v.username = pyLower inp.username) = true := by
      rw [List.any_eq_true]
      exact ⟨u, hu, by rw [decide_eq_true_iff]; rw [← (hnorm u hu).2]; exact he⟩
    have hmem : ("username", "A user with this username already exists.") ∈
        registerFieldErrors store inp := by
      unfold registerFieldErrors validate_username
      rw [if_pos hany]
      simp
    refine ⟨registerFieldErrors store inp, ?_, hmem⟩
    unfold register
    obtain ⟨e, es, hcons⟩ :=
      List.exists_cons_of_ne_nil (List.ne_nil_of_mem hmem)
    rw [hcons]
  · intro u h
    unfold register at h
    split at h
    · cases h
    · split at h
      · cases h
        exact ⟨rfl, rfl⟩
      · cases h

/-- Witness for C6: registering `BOB@Example.com` against a store already
holding `bob@example.com` is rejected with the email-scoped conflict
message. -/
theorem registration_uniqueness_case_insensitive_witness :
    ∃ errs, register [bob] 9 regConflict = Except.error errs ∧
      ("email", "A user with this email already exists.") ∈ errs :=
  (registration_uniqueness_case_insensitive [bob] 9 regConflict
    (by decide)).1 ⟨bob, by decide, by decide⟩

/-- Every task the list endpoint returns comes from the role-scoped base
queryset: the three optional filters only narrow it. -/
theorem list_tasks_subset_base :
    ∀ (caller : UserRec) (tasks : List TaskRec) (p : TaskQueryParams) (t : TaskRec),
      t ∈ list_tasks caller tasks p → t ∈ baseQueryset caller tasks := by
  intro caller tasks p t h
  unfold list_tasks at h
  rcases p with ⟨st, pr, se⟩
  cases st <;> cases pr <;> cases se <;>
    dsimp only at h <;>
    (try split_ifs at h) <;>
    simp_all [List.mem_filter]

/-- Counterexample to C3 as stated: the non-admin `alice` retrieving the
task of `bob` gets a not-found error, not the claimed authorization
error — `TaskDetailView.get_queryset` already excludes the task, so
`get_object` misses before `IsOwnerOrAdmin` ever runs. -/
theorem ownership_error_kind_counterexample :
    task_retrieve alice [bobTask] 10 = Except.error ApiError.notFound ∧
    task_retrieve alice [bobTask] 10 ≠ Except.error ApiError.forbidden := by decide

/-- Claim C3 (amended): for a non-admin caller and a task they do not own,
the task never appears in `list_tasks`, the object permission denies them,
and direct retrieve, update and delete fail — with a not-found error,
because the role-scoped queryset hides the task before the object
permission is checked; for an admin caller the base set is all tasks and
the object permission always grants. -/
theorem ownership_scoping :
    ∀ (caller : UserRec) (tasks : List TaskRec) (t : TaskRec),
      (caller.role ≠ Role.admin → t.owner ≠ caller.id →
        (∀ t2 ∈ tasks, t2.id = t.id → t2 = t) →
        (∀ p, t ∉ list_tasks caller tasks p) ∧
        has_object_permission caller t = false ∧
        task_retrieve caller tasks t.id = Except.error ApiError.notFound ∧
        (∀ payload, task_update caller tasks t.id payload = Except.error ApiError.notFound) ∧
        task_delete caller tasks t.id = Except.error ApiError.notFound) ∧
      (caller.role = Role.admin →
        baseQueryset caller tasks = tasks ∧
        has_object_permission caller t = true) := by
  intro caller tasks t
  constructor
  · intro hrole howner huniq
    have hbase : baseQueryset caller tasks = tasks.filter (fun x => x.owner = caller.id) := by
      simp [baseQueryset, isAdminCaller, hrole]
    have hnotbase : t ∉ baseQueryset caller tasks := by
      rw [hbase]
      intro hm
      exact howner (by simpa using (List.mem_filter.mp hm).2)
    have hfind : (baseQueryset caller tasks).find? (fun x => x.id = t.id) = none := by
      rw [List.find?_eq_none]
      intro x hx hpx
      have hxt : x = t := huniq x (by rw [hbase] at hx; exact (List.mem_filter.mp hx).1)
        (by simpa using hpx)
      subst hxt
      exact hnotbase hx
    have hobj : getTaskObject caller tasks t.id = Except.error ApiError.notFound := by
      unfold getTaskObject
      rw [hfind]
    refine ⟨?_, ?_, ?_, ?_, ?_⟩
    · intro p hm
      exact hnotbase (list_tasks_subset_base caller tasks p t hm)
    · simp [has_object_permission, hrole, howner]
    · exact hobj
    · intro payload
      unfold task_update
      rw [hobj]
    · unfold task_delete
      rw [hobj]
  · intro hrole
    constructor
    · simp [baseQueryset, isAdminCaller, hrole]
    · simp [has_object_permission, hrole]

/-- Witness for the amended C3: at the concrete store `[bobTask]`, the
non-admin `alice` is denied by the object permission and retrieve and
delete answer not-found. -/
theorem ownership_scoping_witness :
    has_object_permission alice bobTask = false ∧
    task_retrieve alice [bobTask] bobTask.id = Except.error ApiError.notFound ∧
    task_delete alice [bobTask] bobTask.id = Except.error ApiError.notFound :=
  ⟨((ownership_scoping alice [bobTask] bobTask).1 (by decide) (by decide) (by decide)).2.1,
   ((ownership_scoping alice [bobTask] bobTask).1 (by decide) (by decide) (by decide)).2.2.1,
   ((ownership_scoping alice [bobTask] bobTask).1 (by decide) (by decide) (by decide)).2.2.2.2⟩

/-- An update payload that tries to reassign the owner. -/
def hijackPayload : TaskUpdatePayload :=
  { title := some "Updated title", description := none, status := some .in_progress
    priority := none, due_date := none, owner := some 999 }

/-- The task `runTaskUpdate bobTask hijackPayload` produces. -/
def bobTaskUpdated : TaskRec :=
  { id := 10, title := "Updated title", description := some "Quarterly report"
    status := .in_progress, priority := .medium, due_date := none, owner := 2 }

/-- Claim C4: after any successful update, full or partial, the owner of a
task equals the owner it had before — the serializer never writes the
owner slot, whatever the payload carries — and at creation the owner is
server-assigned to the creating caller. -/
theorem owner_immutable :
    (∀ (inst : TaskRec) (p : TaskUpdatePayload) (t2 : TaskRec),
      runTaskUpdate inst p = Except.ok t2 → t2.owner = inst.owner) ∧
    (∀ (caller : UserRec) (nextId : Nat) (p : TaskCreatePayload) (t : TaskRec),
      createTask caller nextId p = Except.ok t → t.owner = caller.id) := by
  constructor
  · intro inst p t2 h
    unfold runTaskUpdate at h
    cases herrs : taskUpdateErrors inst p with
    | cons e es =>
        simp only [herrs] at h
        cases h
    | nil =>
        simp only [herrs] at h
        cases h
        rfl
  · intro caller nextId p t h
    unfold createTask at h
    split at h
    · cases h
    · cases h
      rfl

/-- Witness for C4: a concrete update whose payload carries `owner := 999`
succeeds and, by the theorem, leaves the owner of the task unchanged. -/
theorem owner_immutable_witness :
    runTaskUpdate bobTask hijackPayload = Except.ok bobTaskUpdated ∧
    hijackPayload.owner = some 999 ∧
    bobTaskUpdated.owner = bobTask.owner :=
  ⟨by decide, by decide, owner_immutable.1 bobTask hijackPayload bobTaskUpdated (by decide)⟩

/-- Query parameters carrying a supplied-but-empty status filter. -/
def emptyStatusParams : TaskQueryParams :=
  { status := some "", priority := none, search := none }

/-- Counterexample to C5 as stated: a supplied empty-string status filter
is treated by the code as absent — `if status_filter:` is false for the
empty string — so `list_tasks` keeps a pending task that an exact match
against the supplied value "" would discard. -/
theorem filters_empty_string_counterexample :
    list_tasks alice [aliceTask] emptyStatusParams = [aliceTask] ∧
    (baseQueryset alice [aliceTask]).filter
      (fun t => specSatisfiesFilters t emptyStatusParams) = [] := by decide

/-- Claim C5 (amended): as long as every supplied filter value is
non-empty (the code ignores a supplied empty string rather than matching
against it), `list_tasks` returns exactly the members of the role-scoped
base set satisfying all supplied filters conjointly — status and priority
by exact match, search by case-insensitive substring match on title or
description; an omitted filter imposes no constraint. -/
theorem filters_conjunction :
    ∀ (caller : UserRec) (tasks : List TaskRec) (p : TaskQueryParams) (t : TaskRec),
      p.status ≠ some "" → p.priority ≠ some "" → p.search ≠ some "" →
      (t ∈ list_tasks caller tasks p ↔
        t ∈ baseQueryset caller tasks ∧ specSatisfiesFilters t p = true) := by
  intro caller tasks p t hs hp hq
  rcases p with ⟨st, pr, se⟩
  unfold list_tasks specSatisfiesFilters
  cases st <;> cases pr <;> cases se <;>
    dsimp only <;>
    simp_all [List.mem_filter, and_assoc] <;>
    tauto

/-- Witness for the amended C5: a concrete filtered listing, with a
status filter and a search filter supplied, characterized by the
theorem. -/
theorem filters_conjunction_witness :
    aliceTask ∈ list_tasks alice [aliceTask, bobTask]
        { status := some "pending", priority := none, search := some "REV" } ↔
      aliceTask ∈ baseQueryset alice [aliceTask, bobTask] ∧
      specSatisfiesFilters aliceTask
        { status := some "pending", priority := none, search := some "REV" } = true :=
  filters_conjunction alice [aliceTask, bobTask]
    { status := some "pending", priority := none, search := some "REV" } aliceTask
    (by decide) (by decide) (by decide)

/-- A store for the stats scenario: alice owns 3 pending tasks and 1
completed task; a foreign pending task of bob is also present to exercise
the role scoping. -/
def statTasks : List TaskRec :=
  [{ id := 21, title := "Task one", description := none, status := .pending
     priority := .low, due_date := none, owner := 1 },
   { id := 22, title := "Task two", description := none, status := .pending
     priority := .medium, due_date := none, owner := 1 },
   { id := 23, title := "Task three", description := none, status := .pending
     priority := .high, due_date := none, owner := 1 },
   { id := 24, title := "Task four", description := none, status := .completed
     priority := .medium, due_date := none, owner := 1 },
   bobTask]

/-- Claim C7: the stats endpoint returns, over the role-scoped visible
set, the total count and one count per exact status; in particular a user
owning 3 pending and 1 completed task gets
{total 4, pending 3, in_progress 0, completed 1, cancelled 0}. -/
theorem stats_counts :
    (∀ (caller : UserRec) (tasks : List TaskRec),
      task_stats caller tasks =
        { total := (baseQueryset caller tasks).length
          pending := (baseQueryset caller tasks).countP (fun t => t.status = Status.pending)
          in_progress := (baseQueryset caller tasks).countP (fun t => t.status = Status.in_progress)
          completed := (baseQueryset caller tasks).countP (fun t => t.status = Status.completed)
          cancelled := (baseQueryset caller tasks).countP (fun t => t.status = Status.cancelled) }) ∧
    task_stats alice statTasks =
      { total := 4, pending := 3, in_progress := 0, completed := 1, cancelled := 0 } := by
  constructor
  · intro caller tasks
    unfold task_stats
    simp [List.countP_eq_length_filter]
  · decide

/-- The user store for the admin-deletion witness: two admins. -/
def adminStore : List UserRec := [carol, dave]

/-- Claim C8: an admin deleting their own account is answered with the
specific cannot-delete-self error and the store is unchanged, while an
admin deleting any other existing user succeeds and removes exactly that
record. -/
theorem admin_self_delete_rejected :
    ∀ (caller : UserRec) (store : List UserRec),
      caller.role = Role.admin →
      (store.find? (fun u => u.id = caller.id) = some caller →
        admin_delete_user caller store caller.id =
          (Except.error (ApiError.badRequest "You cannot delete your own account"), store)) ∧
      (∀ (targetId : Nat) (target : UserRec),
        store.find? (fun u => u.id = targetId) = some target →
        targetId ≠ caller.id →
        admin_delete_user caller store targetId =
          (Except.ok (), store.filter (fun u => u.id ≠ targetId))) := by
  intro caller store hrole
  constructor
  · intro hfind
    unfold admin_delete_user
    rw [if_neg (by simp [hrole]), hfind]
    simp
  · intro targetId target hfind hne
    have hid : target.id = targetId := by simpa using List.find?_some hfind
    unfold admin_delete_user
    rw [if_neg (by simp [hrole]), hfind]
    simp [hid, hne]

/-- Witness for C8: the admin `carol` cannot delete herself but deletes
the other admin `dave`. -/
theorem admin_self_delete_rejected_witness :
    admin_delete_user carol adminStore carol.id =
      (Except.error (ApiError.badRequest "You cannot delete your own account"), adminStore) ∧
    admin_delete_user carol adminStore 4 =
      (Except.ok (), adminStore.filter (fun u => u.id ≠ 4)) :=
  ⟨(admin_self_delete_rejected carol adminStore (by decide)).1 (by decide),
   (admin_self_delete_rejected carol adminStore (by decide)).2 4 dave (by decide) (by decide)⟩

/-- Claim C9: logout is total and deterministic — a missing or empty
refresh field is a bad request, an unparsable token is a bad request, a
valid issued token is blacklisted with a success response, and a second
logout of the same, now blacklisted, token still succeeds. -/
theorem logout_deterministic :
    ∀ (st : AuthState) (refresh : Option String),
      (truthy refresh = false →
        logout st refresh = (Except.error (ApiError.badRequest "Refresh token is required"), st)) ∧
      (∀ tok, refresh = some tok → tok ≠ "" → tok ∉ st.issued →
        logout st refresh = (Except.error (ApiError.badRequest "Invalid token"), st)) ∧
      (∀ tok, refresh = some tok → tok ≠ "" → tok ∈ st.issued →
        (logout st refresh).1 = Except.ok "Successfully logged out" ∧
        tok ∈ (logout st refresh).2.blacklist ∧
        (logout (logout st refresh).2 refresh).1 = Except.ok "Successfully logged out" ∧
        tok ∈ (logout (logout st refresh).2 refresh).2.blacklist) := by
  intro st refresh
  refine ⟨?_, ?_, ?_⟩
  · intro h
    simp [logout, h]
  · intro tok href hne hni
    subst href
    simp [logout, truthy, hne, hni]
  · intro tok href hne hin
    subst href
    by_cases hb : tok ∈ st.blacklist <;>
      simp [logout, truthy, hne, hin, blacklistAdd, hb]

/-- The issued-token state for the logout witness. -/
def authSt : AuthState := { issued := ["tokA"], blacklist := [] }

/-- Witness for C9: logging the issued token out succeeds, blacklists it,
and logging it out again still succeeds. -/
theorem logout_deterministic_witness :
    (logout authSt (some "tokA")).1 = Except.ok "Successfully logged out" ∧
    "tokA" ∈ (logout authSt (some "tokA")).2.blacklist ∧
    (logout (logout authSt (some "tokA")).2 (some "tokA")).1 =
      Except.ok "Successfully logged out" ∧
    "tokA" ∈ (logout (logout authSt (some "tokA")).2 (some "tokA")).2.blacklist :=
  (logout_deterministic authSt (some "tokA")).2.2 "tokA" rfl (by decide) (by decide)

/-- An admin update payload that attempts to change email, username and id
along with the writable fields. -/
def adminHijackPayload : AdminUserUpdatePayload :=
  { id := some 77, email := some "evil@example.com", username := some "evil77"
    first_name := some "Robert", last_name := some "B2"
    role := some .admin, is_active := some false }

/-- Claim C10: an admin user-update, full or partial, leaves the target id,
email and username (and password hash) unchanged — only first_name,
last_name, role and is_active are writable — even when the payload
supplies new identity values. -/
theorem admin_update_identity_frame :
    (∀ (inst : UserRec) (p : AdminUserUpdatePayload),
      (admin_update_user inst p).id = inst.id ∧
      (admin_update_user inst p).email = inst.email ∧
      (admin_update_user inst p).username = inst.username ∧
      (admin_update_user inst p).password_hash = inst.password_hash) ∧
    admin_update_user bob adminHijackPayload =
      { bob with first_name := "Robert", last_name := "B2"
                 role := Role.admin, is_active := false } := by
  constructor
  · intro inst p
    exact ⟨rfl, rfl, rfl, rfl⟩
  · decide

end PrimeTask
